import Mathlib

/-!
Verification of the AEI student-portal source against its specification.

The portal is a collection of Express route handlers over a Postgres
store.  We embed the relevant handlers shallowly: each handler becomes a
pure Lean function from an explicit database / filesystem state and the
request data to the successor state and the rendered response.  SQL
statements are translated to list operations on the embedded tables,
and the schema constraints that matter (UNIQUE email, ON DELETE CASCADE
foreign keys) are reflected in the embedded insert / delete semantics.
-/

namespace AeiPortal

/-! ## Request / field values

A value read from `req.body` is either absent (`undefined`) or a string;
a value read from a database row can additionally be a SQL `NULL` or a
non-string value such as a `DATE`.  `FieldVal` covers the row case. -/

/-- A column value as seen by a route handler: SQL `NULL` / JS
`undefined`, a string, or a non-null non-string value (e.g. a `DATE`). -/
inductive FieldVal where
  | vnull
  | vstr (s : String)
  | vother
deriving Repr, DecidableEq

/-- JS `String.prototype.trim`, embedded over the character list (the
core `String.trim` is not kernel-reducible): drop whitespace from both
ends. -/
def jsTrim (s : String) : String :=
  String.mk (((s.data.dropWhile Char.isWhitespace).reverse.dropWhile
    Char.isWhitespace).reverse)

/-- JS `String.prototype.toLowerCase` on the ASCII range, embedded over
the character list. -/
def jsLower (s : String) : String :=
  String.mk (s.data.map Char.toLower)

/-- `cleanText` from server.js: `String(v ?? "").trim()` on a request
field (absent fields become the empty string). -/
def cleanText (v : Option String) : String :=
  jsTrim (v.getD "")

/-- `isBlank` from server.js: `String(v ?? "").trim() === ""`. -/
def isBlank (v : Option String) : Bool :=
  jsTrim (v.getD "") == ""

/-- `cleanEmail` from server.js: `String(v || "").trim().toLowerCase()`. -/
def cleanEmail (v : Option String) : String :=
  jsLower (jsTrim (v.getD ""))

/-! ## RAPIDS readiness (server.js `rapidsReadiness`, also in part_010) -/

/-- The six required RAPIDS fields of a student row, in the order the
source lists them. -/
structure RapidsFields where
  program_name : FieldVal
  provider_program_id : FieldVal
  program_system_id : FieldVal
  student_id_no : FieldVal
  student_id_type : FieldVal
  enrollment_date : FieldVal
deriving Repr, DecidableEq

/-- The missing-field test of `rapidsReadiness`: `null`/`undefined` is
missing, a string is missing when it trims to empty, any other value is
present. -/
def fieldMissing : FieldVal → Bool
  | .vnull => true
  | .vstr s => jsTrim s == ""
  | .vother => false

/-- The `required` key list of `rapidsReadiness` paired with the per-row
values. -/
def requiredRapids (s : RapidsFields) : List (String × FieldVal) :=
  [("program_name", s.program_name),
   ("provider_program_id", s.provider_program_id),
   ("program_system_id", s.program_system_id),
   ("student_id_no", s.student_id_no),
   ("student_id_type", s.student_id_type),
   ("enrollment_date", s.enrollment_date)]

/-- The readiness `code` field of the object `rapidsReadiness` returns. -/
inductive ReadinessCode where
  | ready
  | nearly
  | incomplete
deriving Repr, DecidableEq

/-- The object returned by `rapidsReadiness`. -/
structure Readiness where
  label : String
  code : ReadinessCode
  missing : List String
deriving Repr, DecidableEq

/-- The `missing` list computed by `rapidsReadiness`: the names of the
required fields whose value is missing. -/
def rapidsMissing (s : RapidsFields) : List String :=
  ((requiredRapids s).filter (fun kv => fieldMissing kv.2)).map (fun kv => kv.1)

/-- `rapidsReadiness` from server.js lines 121-141: filter the six
required fields down to the missing ones and classify by count. -/
def rapidsReadiness (s : RapidsFields) : Readiness :=
  if (rapidsMissing s).length = 0 then ⟨"✅ Ready", .ready, rapidsMissing s⟩
  else if (rapidsMissing s).length ≤ 2 then ⟨"⚠️ Nearly", .nearly, rapidsMissing s⟩
  else ⟨"❌ Incomplete", .incomplete, rapidsMissing s⟩

/-- The number of missing fields among the six required RAPIDS fields. -/
def rapidsMissingCount (s : RapidsFields) : Nat :=
  ((requiredRapids s).filter (fun kv => fieldMissing kv.2)).length

/-- Claim C10: `rapidsReadiness` is a total function of the six required
fields and returns code `ready` exactly when none is missing, `nearly`
exactly when one or two are missing, and `incomplete` exactly when three
or more are missing. -/
theorem rapidsReadiness_code_spec (s : RapidsFields) :
    ((rapidsReadiness s).code = .ready ↔ rapidsMissingCount s = 0) ∧
    ((rapidsReadiness s).code = .nearly ↔
      (1 ≤ rapidsMissingCount s ∧ rapidsMissingCount s ≤ 2)) ∧
    ((rapidsReadiness s).code = .incomplete ↔ 3 ≤ rapidsMissingCount s) := by
  have hc : (rapidsMissing s).length = rapidsMissingCount s := by
    simp [rapidsMissing, rapidsMissingCount]
  unfold rapidsReadiness
  rw [hc]
  by_cases h0 : rapidsMissingCount s = 0
  · simp [h0]
  · by_cases h2 : rapidsMissingCount s ≤ 2
    · simp [h0, h2]
      omega
    · simp [h0, h2]
      omega

/-! ## Sessions and per-route role guards -/

/-- The object stored in `req.session.user` after a successful login. -/
structure SessionUser where
  id : Nat
  email : String
  role : String
deriving Repr, DecidableEq

/-- Outcome of a route guard middleware. -/
inductive GuardResult where
  | redirectLogin
  | forbidden
  | proceed
deriving Repr, DecidableEq

/-- `requireRole` from server.js lines 95-100 (same shape in part_006,
part_008, part_010, part_012): a missing session and a role mismatch
both redirect to the login page. -/
def requireRole (role : String) (sess : Option SessionUser) : GuardResult :=
  match sess with
  | none => .redirectLogin
  | some u => if u.role ≠ role then .redirectLogin else .proceed

/-- `requireRole` from part_011 lines 25-32: a missing session and a
role mismatch both yield 403 "Access denied". -/
def requireRole011 (role : String) (sess : Option SessionUser) : GuardResult :=
  match sess with
  | none => .forbidden
  | some u => if u.role ≠ role then .forbidden else .proceed

/-- `requireAdmin` from part_009 lines 41-45: a missing session
redirects to the login page, a non-admin session yields
403 "Admin only.". -/
def requireAdmin009 (sess : Option SessionUser) : GuardResult :=
  match sess with
  | none => .redirectLogin
  | some u => if u.role ≠ "admin" then .forbidden else .proceed

/-- Claim C4, counterexample: in server.js an authenticated student
hitting an admin-only route is redirected to the login page, not
rejected with Forbidden, so role mismatch does not "fail with
Forbidden" as claimed. -/
theorem requireRole_mismatch_not_forbidden :
    requireRole "admin" (some ⟨2, "s@example.com", "student"⟩) = .redirectLogin ∧
    requireRole "admin" (some ⟨2, "s@example.com", "student"⟩) ≠ .forbidden := by
  decide

/-- Claim C4, amended: the guards differ by iteration.  The part_009
`requireAdmin` behaves as claimed (unauthenticated redirects to login,
role mismatch is Forbidden); the server.js `requireRole` redirects to
login in both cases; the part_011 `requireRole` answers Forbidden in both
cases. -/
theorem guards_spec (role : String) (u : SessionUser) :
    requireRole role none = .redirectLogin ∧
    requireAdmin009 none = .redirectLogin ∧
    requireRole011 role none = .forbidden ∧
    requireAdmin009 (some u) =
      (if u.role = "admin" then .proceed else .forbidden) ∧
    requireRole role (some u) =
      (if u.role = role then .proceed else .redirectLogin) ∧
    requireRole011 role (some u) =
      (if u.role = role then .proceed else .forbidden) := by
  unfold requireRole requireAdmin009 requireRole011
  refine ⟨rfl, rfl, rfl, ?_, ?_, ?_⟩
  · by_cases h : u.role = "admin" <;> simp [h]
  · by_cases h : u.role = role <;> simp [h]
  · by_cases h : u.role = role <;> simp [h]

/-! ## Document vault: single-document download
(server.js GET /admin/docs/:docId/download, lines 1198-1217) -/

/-- A row of `student_documents` (db.js). -/
structure DocRow where
  id : Nat
  student_id : Nat
  uploaded_by_user_id : Nat
  doc_type : String
  title : String
  original_filename : String
  stored_filename : String
  mime_type : String
  file_size_bytes : Nat
deriving Repr, DecidableEq

/-- Response of the download route: the login redirect produced by the
`requireRole("admin")` guard, 404 "Not found" (no row),
404 "File missing" (row but no file on disk), or the streamed file. -/
inductive DownloadResult where
  | redirectLogin
  | notFound
  | fileMissing
  | download (filePath : String) (attachmentName : String)
deriving Repr, DecidableEq

/-- GET /admin/docs/:docId/download from server.js lines 1198-1217,
behind `requireRole("admin")`.  `fsHasFile` embeds `fs.existsSync`;
`path.join(uploadDir, doc.stored_filename)` is embedded as
concatenation with "/". -/
def adminDocDownload (sess : Option SessionUser) (uploadDir : String)
    (docs : List DocRow) (fsHasFile : String → Bool) (docId : Nat) : DownloadResult :=
  match requireRole "admin" sess with
  | .proceed =>
    match docs.find? (fun d => d.id == docId) with
    | none => .notFound
    | some doc =>
      if fsHasFile (uploadDir ++ "/" ++ doc.stored_filename) then
        .download (uploadDir ++ "/" ++ doc.stored_filename)
          (doc.original_filename.replace "\"" "")
      else .fileMissing
  | _ => .redirectLogin

/-- The (id, user_id) core of a students row: the foreign-key link that
defines entity ownership in every schema iteration. -/
structure StudentRowLite where
  id : Nat
  user_id : Nat
deriving Repr, DecidableEq

/-- Ownership of a student entity as defined by the data model: the
user is the `user_id` of the student row.  (Used to state that the
download route ignores ownership.) -/
def ownsStudent (students : List StudentRowLite) (userId sid : Nat) : Bool :=
  students.any (fun s => s.id == sid && s.user_id == userId)

/-- Claim C3, counterexample: the student who owns the referenced
entity (user 2 owns student 7, the document belongs to student 7, the
file is on disk) is not permitted to download; the request is
redirected to login rather than succeeding. -/
theorem adminDocDownload_owner_denied :
    ownsStudent [⟨7, 2⟩] 2 7 = true ∧
    adminDocDownload (some ⟨2, "s@example.com", "student"⟩) "uploads"
      [⟨1, 7, 1, "ID", "card", "card.pdf", "123_ab_card.pdf", "application/pdf", 10⟩]
      (fun _ => true) 1 = .redirectLogin := by
  decide

/-- Claim C3, amended: the single-document download route is
admin-only.  A non-admin requester — including the owner of the
referenced entity — is redirected to the login page (not Forbidden);
an admin can download any document regardless of owner; a missing row
yields 404 Not found and a missing file yields 404 File missing, both
distinct from the non-admin outcome. -/
theorem adminDocDownload_spec (u : SessionUser) (dir : String)
    (docs : List DocRow) (fs : String → Bool) (docId : Nat) :
    adminDocDownload none dir docs fs docId = .redirectLogin ∧
    adminDocDownload (some u) dir docs fs docId =
      (if u.role = "admin" then
        match docs.find? (fun d => d.id == docId) with
        | none => DownloadResult.notFound
        | some doc =>
          if fs (dir ++ "/" ++ doc.stored_filename) then
            DownloadResult.download (dir ++ "/" ++ doc.stored_filename)
              (doc.original_filename.replace "\"" "")
          else DownloadResult.fileMissing
       else DownloadResult.redirectLogin) ∧
    (DownloadResult.notFound ≠ .redirectLogin ∧
      DownloadResult.fileMissing ≠ .redirectLogin) := by
  unfold adminDocDownload requireRole
  refine ⟨rfl, ?_, by decide⟩
  by_cases h : u.role = "admin" <;> simp [h]

/-! ## Status lifecycle: the admin status-update routes

Two iterations are embedded: the part_008 POST /admin/students/:id/update
(the era whose db.js creates `student_status_history`) and the server.js
POST /admin/students/:id/update-identity.  Neither handler contains an
INSERT into `student_status_history`; both carry the history table
through unchanged. -/

/-- `STUDENT_STATUSES` from server.js lines 20-26. -/
def STUDENT_STATUSES : List String :=
  ["Pending Enrollment", "Active", "On Hold", "Completed", "Withdrawn"]

/-- A row of `student_status_history` (db.js / schema.sql): the
append-only audit trail of status transitions. -/
structure HistoryRow where
  id : Nat
  student_id : Nat
  old_status : String
  new_status : String
  changed_by_user_id : Option Nat
  changed_at : Nat
deriving Repr, DecidableEq

/-- The students row of the part_008-era schema (the db.js `initDb`
variant that also creates the status-history table). -/
structure Student008 where
  id : Nat
  user_id : Nat
  first_name : String := ""
  last_name : String := ""
  phone : String := ""
  level : Int := 1
  status : String := "Pending Enrollment"
  employer_name : String := ""
deriving Repr, DecidableEq

/-- POST /admin/students/:id/update from part_008 lines 181-203: a
single UPDATE of the student row from the submitted form fields (status
and level included, written without validation); the handler has no
INSERT into student_status_history, so the history list is returned as
it came in. -/
def adminStudentUpdate008 (students : List Student008) (history : List HistoryRow)
    (studentId : Nat) (first_name last_name phone employer_name status : String)
    (level : Int) : List Student008 × List HistoryRow :=
  (students.map (fun s =>
    if s.id == studentId then
      { s with first_name := first_name, last_name := last_name, phone := phone,
               employer_name := employer_name, status := status, level := level }
    else s), history)

/-- Claim C1: evaluating the admin status-update at the failing input.
The submitted status "Active" differs from the current
"Pending Enrollment" and the student row is updated, yet the status
history stays empty — the handler (like every handler in the
repository) never inserts into student_status_history, so the history
row count does not equal the number of distinct transitions. -/
theorem adminStudentUpdate008_no_history_row :
    adminStudentUpdate008 [{ id := 1, user_id := 10 }] [] 1
        "Ada" "Lovelace" "555-0100" "ACME Electric" "Active" 2 =
      ([{ id := 1, user_id := 10, first_name := "Ada", last_name := "Lovelace",
          phone := "555-0100", level := 2, status := "Active",
          employer_name := "ACME Electric" }], []) ∧
    ("Active" : String) ≠ "Pending Enrollment" ∧
    ([] : List HistoryRow).length ≠ 1 := by
  decide

/-! ### server.js POST /admin/students/:id/update-identity (lines 901-980) -/

/-- A students row with the columns the server.js identity routes read
and write. -/
structure StudentRow where
  id : Nat
  user_id : Nat
  first_name : String := ""
  middle_name : String := ""
  last_name : String := ""
  suffix : String := ""
  address : String := ""
  city : String := ""
  state : String := ""
  zip_code : String := ""
  phone : String := ""
  employer_name : String := ""
  ssn : Option String := none
  ssn_not_provided : Bool := false
  date_of_birth : Option String := none
  sex : String := ""
  employment_status : String := ""
  pre_apprenticeship : String := ""
  level : Int := 1
  status : String := "Pending Enrollment"
deriving Repr, DecidableEq

/-- The identity form body of the update-identity routes; an absent
field is `none` (JS `undefined`).  The numeric `level` select is
embedded as `Option Int` standing for `Number(req.body.level || 1)`. -/
structure IdentityBody where
  first_name : Option String := none
  middle_name : Option String := none
  last_name : Option String := none
  suffix : Option String := none
  address : Option String := none
  city : Option String := none
  state : Option String := none
  zip_code : Option String := none
  phone : Option String := none
  employer_name : Option String := none
  ssn : Option String := none
  ssn_not_provided : Option String := none
  date_of_birth : Option String := none
  sex : Option String := none
  employment_status : Option String := none
  pre_apprenticeship : Option String := none
  level : Option Int := none
  status : Option String := none
deriving Repr, DecidableEq

/-- The `requiredFields` missing-check of the update-identity route:
names of the required form fields that are blank. -/
def identityMissing (b : IdentityBody) : List String :=
  ([("first_name", b.first_name), ("last_name", b.last_name),
    ("address", b.address), ("city", b.city), ("state", b.state),
    ("zip_code", b.zip_code), ("phone", b.phone),
    ("employer_name", b.employer_name), ("date_of_birth", b.date_of_birth),
    ("sex", b.sex), ("employment_status", b.employment_status),
    ("pre_apprenticeship", b.pre_apprenticeship)].filter
      (fun kv => isBlank kv.2)).map (fun kv => kv.1)

/-- `req.body.ssn_not_provided === "on"`. -/
def ssnNotProvidedOf (b : IdentityBody) : Bool :=
  b.ssn_not_provided == some "on"

/-- `v || null` on a request field: empty or absent becomes SQL NULL. -/
def orNull (v : Option String) : Option String :=
  match v with
  | none => none
  | some s => if s = "" then none else some s

/-- Response of the update-identity route. -/
inductive AdminUpdateResponse where
  | validationError (msg : String)
  | updated (msg : String)
deriving Repr, DecidableEq

/-- The SET clause of the update-identity UPDATE applied to one row
(applies when the row id matches the route parameter). -/
def applyIdentityUpdate (b : IdentityBody) (studentId : Nat) (s : StudentRow) : StudentRow :=
  if s.id == studentId then
    { s with
      first_name := cleanText b.first_name,
      middle_name := cleanText b.middle_name,
      last_name := cleanText b.last_name,
      suffix := cleanText b.suffix,
      address := cleanText b.address,
      city := cleanText b.city,
      state := cleanText b.state,
      zip_code := cleanText b.zip_code,
      phone := cleanText b.phone,
      employer_name := cleanText b.employer_name,
      ssn := if ssnNotProvidedOf b then none else some (cleanText b.ssn),
      ssn_not_provided := ssnNotProvidedOf b,
      date_of_birth := orNull b.date_of_birth,
      sex := cleanText b.sex,
      employment_status := cleanText b.employment_status,
      pre_apprenticeship := cleanText b.pre_apprenticeship,
      level := b.level.getD 1,
      status := cleanText b.status }
  else s

/-- POST /admin/students/:id/update-identity from server.js lines
901-980: reject when a required field is blank (or SSN is blank without
the opt-out), otherwise UPDATE the matching student row — status and
level included, with no check of the status against `STUDENT_STATUSES`
and no INSERT into the status history. -/
def adminUpdateIdentity (students : List StudentRow) (history : List HistoryRow)
    (studentId : Nat) (b : IdentityBody) :
    (List StudentRow × List HistoryRow) × AdminUpdateResponse :=
  if identityMissing b ≠ [] ∨ (¬ ssnNotProvidedOf b ∧ isBlank b.ssn) then
    ((students, history),
      .validationError "Please complete all required identity fields.")
  else
    ((students.map (applyIdentityUpdate b studentId), history),
      .updated "Identity / Progress updated")

/-- A fully populated identity form whose submitted status value is not
in the enumerated status set. -/
def invalidStatusBody : IdentityBody :=
  { first_name := some "Ada", last_name := some "Lovelace",
    address := some "1 Main St", city := some "Denver", state := some "CO",
    zip_code := some "80014", phone := some "555-0100",
    employer_name := some "ACME Electric", date_of_birth := some "2000-01-02",
    sex := some "F", employment_status := some "Employed",
    pre_apprenticeship := some "No", ssn_not_provided := some "on",
    level := some 2, status := some "Graduated Elsewhere" }

/-- Claim C2, counterexample: the server.js admin update-identity route
stores a status value outside the enumerated set — submitting
"Graduated Elsewhere" overwrites the current status of the student instead
of leaving the record unchanged. -/
theorem adminUpdateIdentity_accepts_invalid_status :
    STUDENT_STATUSES.contains "Graduated Elsewhere" = false ∧
    ((adminUpdateIdentity [{ id := 1, user_id := 10 }] [] 1
        invalidStatusBody).1.1.map (fun s => s.status)) = ["Graduated Elsewhere"] := by
  decide

/-! ### part_009 POST /admin/students/:id/status (lines 263-272) -/

/-- `STATUS_OPTIONS` from part_009 lines 26-31. -/
def STATUS_OPTIONS : List String :=
  ["Currently enrolled in class", "Paused", "Dropped class", "Dropped program"]

/-- The in-memory student object of part_009. -/
structure MemStudent where
  id : String
  firstName : String := ""
  lastName : String := ""
  email : String := ""
  state : String := "CO"
  employed : Bool := false
  apprenticeNumber : String := ""
  level : String := "1"
  status : String := "Currently enrolled in class"
  createdAt : String := ""
deriving Repr, DecidableEq

/-- Response of the part_009 status route. -/
inductive StatusResponse where
  | notFound
  | redirectStudent (id : String)
deriving Repr, DecidableEq

/-- `students.find(...)` followed by mutation of the found object:
set the status of the first student whose id matches. -/
def setStatusFirst (sid status : String) : List MemStudent → List MemStudent
  | [] => []
  | s :: rest =>
    if s.id == sid then { s with status := status } :: rest
    else s :: setStatusFirst sid status rest

/-- POST /admin/students/:id/status from part_009 lines 263-272:
404 when the student is unknown; otherwise trim the submitted status
and assign it only when it is one of `STATUS_OPTIONS`, then redirect to
the student page. -/
def updateStatus009 (students : List MemStudent) (sid : String)
    (bodyStatus : Option String) : List MemStudent × StatusResponse :=
  match students.find? (fun s => s.id == sid) with
  | none => (students, .notFound)
  | some student =>
    let status := jsTrim (bodyStatus.getD "")
    if STATUS_OPTIONS.contains status then
      (setStatusFirst sid status students, .redirectStudent student.id)
    else
      (students, .redirectStudent student.id)

/-- Claim C2, amended: on the dedicated status route (part_009) a
submitted status outside the enumerated set leaves the students store
unchanged (and there is no history store to append to); the server.js
update-identity route, however, stores any submitted status without
validating it. -/
theorem updateStatus009_invalid_unchanged (students : List MemStudent)
    (sid : String) (bodyStatus : Option String)
    (h : STATUS_OPTIONS.contains (jsTrim (bodyStatus.getD "")) = false) :
    (updateStatus009 students sid bodyStatus).1 = students := by
  unfold updateStatus009
  cases hf : students.find? (fun s => s.id == sid)
  · rfl
  · simp only [h, Bool.false_eq_true, if_false]

/-- Witness for `updateStatus009_invalid_unchanged` at a concrete
store and an out-of-set status value. -/
theorem updateStatus009_invalid_unchanged_witness :
    STATUS_OPTIONS.contains (jsTrim ((some "Enrolled Forever").getD "")) = false ∧
    (updateStatus009 [{ id := "S1" }] "S1" (some "Enrolled Forever")).1 =
      [{ id := "S1" }] :=
  ⟨by decide,
    updateStatus009_invalid_unchanged [{ id := "S1" }] "S1"
      (some "Enrolled Forever") (by decide)⟩

/-! ## User creation and the UNIQUE(email) constraint
(server.js `createUser` / POST /admin/students/create, db.js users
table) -/

/-- A row of the users table (db.js: id, email UNIQUE, password_hash,
role). -/
structure UserRow where
  id : Nat
  email : String
  password_hash : String
  role : String
deriving Repr, DecidableEq

/-- A Postgres error object as seen by the catch block of a route. -/
structure PgError where
  code : String
  message : String
deriving Repr, DecidableEq

/-- `left.startsWith right` over character lists. -/
def listStartsWith : List Char → List Char → Bool
  | [], _ => true
  | _ :: _, [] => false
  | p :: ps, c :: cs => p == c && listStartsWith ps cs

/-- Substring containment over character lists (JS
`String.prototype.includes`). -/
def listHasSub (pat : List Char) : List Char → Bool
  | [] => pat.isEmpty
  | c :: cs => listStartsWith pat (c :: cs) || listHasSub pat cs

/-- JS `s.includes(pat)` embedded over the character lists. -/
def jsIncludes (s pat : String) : Bool :=
  listHasSub pat.data s.data

/-- `isDuplicateEmailError` from server.js lines 112-118: Postgres
error code 23505 or a "duplicate key" message. -/
def isDuplicateEmailError (e : PgError) : Bool :=
  e.code == "23505" || jsIncludes e.message "duplicate key"

/-- INSERT INTO users under the schema UNIQUE(email) constraint
(db.js: `email TEXT UNIQUE NOT NULL`): inserting an email that is
already stored raises Postgres error 23505; otherwise the row is
appended and its id returned. -/
def insertUser (users : List UserRow) (nextId : Nat) (email hash role : String) :
    Except PgError (List UserRow × Nat) :=
  if users.any (fun u => u.email == email) then
    .error ⟨"23505", "duplicate key value violates unique constraint"⟩
  else
    .ok (users ++ [⟨nextId, email, hash, role⟩], nextId)

/-- `safeTempPassword` from server.js lines 102-105. -/
def safeTempPassword (input : Option String) : Option String :=
  let v := jsTrim (input.getD "")
  if v.length ≠ 0 then some v else none

/-- `createUser` from server.js lines 746-759: pick the supplied temp
password or the random one, hash it (`bcryptHash` embeds
`bcrypt.hashSync`), and INSERT the user row. -/
def createUser (bcryptHash : String → String) (users : List UserRow) (nextId : Nat)
    (email role : String) (tempPasswordInput : Option String) (randomPw : String) :
    Except PgError (List UserRow × Nat × String) :=
  let password := (safeTempPassword tempPasswordInput).getD randomPw
  let hash := bcryptHash password
  (insertUser users nextId email hash role).map (fun r => (r.1, r.2, password))

/-- Users plus student profiles: the state POST /admin/students/create
touches. -/
structure CreateState where
  users : List UserRow
  students : List StudentRowLite
deriving Repr, DecidableEq

/-- Response of the create-student route. -/
inductive CreateResponse where
  | emailRequired
  | created (tempPassword : String)
  | emailExists
  | serverError (e : PgError)
deriving Repr, DecidableEq

/-- POST /admin/students/create from server.js lines 762-807: clean the
email, reject when empty, create the user then the student profile;
a duplicate-email error is converted to the "Email already exists"
message, any other error is rethrown. -/
def adminCreateStudent (bcryptHash : String → String) (st : CreateState)
    (nextUserId nextStudentId : Nat) (bodyEmail tempPw : Option String)
    (randomPw : String) : CreateState × CreateResponse :=
  let email := cleanEmail bodyEmail
  if email = "" then (st, .emailRequired)
  else
    match createUser bcryptHash st.users nextUserId email "student" tempPw randomPw with
    | .ok r =>
      ({ users := r.1, students := st.students ++ [⟨nextStudentId, r.2.1⟩] },
        .created r.2.2)
    | .error e =>
      if isDuplicateEmailError e then (st, .emailExists)
      else (st, .serverError e)

/-- Claim C6: creating two users with the same email makes the second
attempt fail with the user-visible "Email already exists" duplicate
error, leaves the state exactly as after the first attempt (the first
row of the first user unaffected, no second row), and exactly one users row holds
that email. -/
theorem duplicate_email_second_create_fails (bcryptHash : String → String)
    (st : CreateState) (bodyEmail tempPw₁ tempPw₂ : Option String)
    (rp₁ rp₂ : String) (uid₁ sid₁ uid₂ sid₂ : Nat)
    (hemail : cleanEmail bodyEmail ≠ "")
    (hfresh : st.users.any (fun u => u.email == cleanEmail bodyEmail) = false) :
    (adminCreateStudent bcryptHash
        (adminCreateStudent bcryptHash st uid₁ sid₁ bodyEmail tempPw₁ rp₁).1
        uid₂ sid₂ bodyEmail tempPw₂ rp₂).2 = .emailExists ∧
    (adminCreateStudent bcryptHash
        (adminCreateStudent bcryptHash st uid₁ sid₁ bodyEmail tempPw₁ rp₁).1
        uid₂ sid₂ bodyEmail tempPw₂ rp₂).1 =
      (adminCreateStudent bcryptHash st uid₁ sid₁ bodyEmail tempPw₁ rp₁).1 ∧
    (∃ pw, (adminCreateStudent bcryptHash st uid₁ sid₁ bodyEmail tempPw₁ rp₁).2 =
      .created pw) ∧
    ((adminCreateStudent bcryptHash st uid₁ sid₁ bodyEmail tempPw₁ rp₁).1.users.filter
      (fun u => u.email == cleanEmail bodyEmail)).length = 1 := by
  have hstep1 :
      adminCreateStudent bcryptHash st uid₁ sid₁ bodyEmail tempPw₁ rp₁ =
        ({ users := st.users ++
            [⟨uid₁, cleanEmail bodyEmail,
              bcryptHash ((safeTempPassword tempPw₁).getD rp₁),
              "student"⟩],
           students := st.students ++ [⟨sid₁, uid₁⟩] },
         .created ((safeTempPassword tempPw₁).getD rp₁)) := by
    unfold adminCreateStudent createUser insertUser
    simp [hemail, hfresh, Except.map]
  have hdup :
      (st.users ++
        [(⟨uid₁, cleanEmail bodyEmail,
          bcryptHash ((safeTempPassword tempPw₁).getD rp₁), "student"⟩ : UserRow)]).any
        (fun u => u.email == cleanEmail bodyEmail) = true := by
    simp
  refine ⟨?_, ?_, ?_, ?_⟩
  · rw [hstep1]
    unfold adminCreateStudent createUser insertUser
    simp [hemail, hdup, isDuplicateEmailError, Except.map]
  · rw [hstep1]
    unfold adminCreateStudent createUser insertUser
    simp [hemail, hdup, isDuplicateEmailError, Except.map]
  · exact ⟨_, by rw [hstep1]⟩
  · rw [hstep1]
    have hnil : st.users.filter (fun u => u.email == cleanEmail bodyEmail) = [] := by
      rw [List.filter_eq_nil_iff]
      intro u hu
      have := List.any_eq_false.mp hfresh u hu
      simpa using this
    simp [List.filter_append, hnil]

/-- Witness for `duplicate_email_second_create_fails` at a concrete
state: one admin already present, the same student email submitted
twice. -/
theorem duplicate_email_second_create_fails_witness :
    (adminCreateStudent (fun p => p ++ "#h")
        ((adminCreateStudent (fun p => p ++ "#h")
          ⟨[⟨1, "admin@aei.com", "h", "admin"⟩], []⟩
          2 1 (some "new@aei.com") none "rnd1").1)
        3 2 (some "new@aei.com") none "rnd2").2 = .emailExists :=
  (duplicate_email_second_create_fails (fun p => p ++ "#h")
    ⟨[⟨1, "admin@aei.com", "h", "admin"⟩], []⟩
    (some "new@aei.com") none none "rnd1" "rnd2" 2 1 3 2
    (by decide) (by decide)).1

/-! ## Deleting a user: ON DELETE CASCADE
(server.js POST /admin/students/:id/delete and
/admin/employers/:id/delete; db.js foreign keys) -/

/-- The (id, user_id) core of an employers row. -/
structure EmployerRowLite where
  id : Nat
  user_id : Nat
deriving Repr, DecidableEq

/-- The relational state the delete routes touch. -/
structure Db where
  users : List UserRow
  students : List StudentRowLite
  employers : List EmployerRowLite
  student_documents : List DocRow
deriving Repr, DecidableEq

/-- `DELETE FROM users WHERE id=$1` under the schema foreign keys
(db.js): `students.user_id` and `employers.user_id` reference users
ON DELETE CASCADE, and `student_documents.student_id` references
students ON DELETE CASCADE, so the delete removes the user row, the
dependent profile rows, and the documents of the removed students. -/
def deleteUserCascade (db : Db) (uid : Nat) : Db :=
  let deadStudents :=
    (db.students.filter (fun s => s.user_id == uid)).map (fun s => s.id)
  { users := db.users.filter (fun u => ¬ u.id == uid),
    students := db.students.filter (fun s => ¬ s.user_id == uid),
    employers := db.employers.filter (fun e => ¬ e.user_id == uid),
    student_documents :=
      db.student_documents.filter (fun d => ¬ deadStudents.contains d.student_id) }

/-- Response of the delete routes. -/
inductive DeleteResponse where
  | notFound
  | deleted
deriving Repr, DecidableEq

/-- POST /admin/students/:id/delete from server.js lines 1220-1236:
look up the user_id of the student and delete that users row (the cascade
does the rest). -/
def adminDeleteStudent (db : Db) (studentId : Nat) : Db × DeleteResponse :=
  match db.students.find? (fun s => s.id == studentId) with
  | none => (db, .notFound)
  | some s => (deleteUserCascade db s.user_id, .deleted)

/-- POST /admin/employers/:id/delete from server.js lines 1301-1317:
the same shape for employers. -/
def adminDeleteEmployer (db : Db) (employerId : Nat) : Db × DeleteResponse :=
  match db.employers.find? (fun e => e.id == employerId) with
  | none => (db, .notFound)
  | some e => (deleteUserCascade db e.user_id, .deleted)

/-- Claim C7: deleting a student cascades.  With unique profile ids
(the primary key), after the delete route runs on an existing student,
no query can reach the student row, any of its document rows, or the
owning user row; the employer route likewise removes profile and user. -/
theorem delete_user_cascades (db : Db) (sid eid : Nat)
    (s : StudentRowLite) (e : EmployerRowLite)
    (hs : db.students.find? (fun r => r.id == sid) = some s)
    (hnodup : (db.students.map (fun r => r.id)).Nodup)
    (he : db.employers.find? (fun r => r.id == eid) = some e)
    (henodup : (db.employers.map (fun r => r.id)).Nodup) :
    ((adminDeleteStudent db sid).1.students.find? (fun r => r.id == sid) = none ∧
      (adminDeleteStudent db sid).1.student_documents.filter
        (fun d => d.student_id == sid) = [] ∧
      (adminDeleteStudent db sid).1.users.find? (fun u => u.id == s.user_id) = none) ∧
    ((adminDeleteEmployer db eid).1.employers.find? (fun r => r.id == eid) = none ∧
      (adminDeleteEmployer db eid).1.users.find? (fun u => u.id == e.user_id) = none) := by
  have hsmem : s ∈ db.students ∧ s.id = sid := by
    have h1 := List.mem_of_find?_eq_some hs
    have h2 := List.find?_some hs
    exact ⟨h1, by simpa using h2⟩
  have hemem : e ∈ db.employers ∧ e.id = eid := by
    have h1 := List.mem_of_find?_eq_some he
    have h2 := List.find?_some he
    exact ⟨h1, by simpa using h2⟩
  constructor
  · unfold adminDeleteStudent
    rw [hs]
    unfold deleteUserCascade
    refine ⟨?_, ?_, ?_⟩
    · rw [List.find?_eq_none]
      intro r hr
      have hrmem : r ∈ db.students := List.mem_of_mem_filter hr
      have hrkeep := List.of_mem_filter hr
      simp only [decide_not, Bool.not_eq_true', decide_eq_false_iff_not] at hrkeep
      simp only [beq_iff_eq] at hrkeep ⊢
      intro hid
      exact hrkeep (by
        have : r = s :=
          List.inj_on_of_nodup_map hnodup hrmem hsmem.1 (by rw [hid, hsmem.2])
        rw [this])
    · rw [List.filter_eq_nil_iff]
      intro d hd
      have hkeep := List.of_mem_filter hd
      simp only [decide_not, Bool.not_eq_true', decide_eq_false_iff_not] at hkeep
      simp only [beq_iff_eq]
      intro hid
      apply hkeep
      have hsidmem :
          sid ∈ (db.students.filter (fun t => t.user_id == s.user_id)).map
            (fun t => t.id) := by
        refine List.mem_map.mpr ⟨s, ?_, hsmem.2⟩
        exact List.mem_filter.mpr ⟨hsmem.1, by simp⟩
      rw [hid]
      simpa using hsidmem
    · rw [List.find?_eq_none]
      intro u hu
      have := List.of_mem_filter hu
      simpa using this
  · unfold adminDeleteEmployer
    rw [he]
    unfold deleteUserCascade
    constructor
    · rw [List.find?_eq_none]
      intro r hr
      have hrmem : r ∈ db.employers := List.mem_of_mem_filter hr
      have hrkeep := List.of_mem_filter hr
      simp only [decide_not, Bool.not_eq_true', decide_eq_false_iff_not] at hrkeep
      simp only [beq_iff_eq] at hrkeep ⊢
      intro hid
      exact hrkeep (by
        have : r = e :=
          List.inj_on_of_nodup_map henodup hrmem hemem.1 (by rw [hid, hemem.2])
        rw [this])
    · rw [List.find?_eq_none]
      intro u hu
      have := List.of_mem_filter hu
      simpa using this

/-- Witness for `delete_user_cascades` at a concrete database: one
student (user 10) with one document, one employer (user 20). -/
theorem delete_user_cascades_witness :
    (adminDeleteStudent
      ⟨[⟨10, "s@aei.com", "h", "student"⟩, ⟨20, "e@aei.com", "h", "employer"⟩],
       [⟨1, 10⟩], [⟨1, 20⟩],
       [⟨1, 1, 10, "ID", "card", "card.pdf", "5_ab_card.pdf", "application/pdf", 9⟩]⟩
      1).1.students.find? (fun r => r.id == 1) = none :=
  (delete_user_cascades
    ⟨[⟨10, "s@aei.com", "h", "student"⟩, ⟨20, "e@aei.com", "h", "employer"⟩],
     [⟨1, 10⟩], [⟨1, 20⟩],
     [⟨1, 1, 10, "ID", "card", "card.pdf", "5_ab_card.pdf", "application/pdf", 9⟩]⟩
    1 1 ⟨1, 10⟩ ⟨1, 20⟩ (by decide) (by decide) (by decide) (by decide)).1.1

/-! ## Login (server.js POST /login, lines 247-275) -/

/-- The user-visible outcome of a login attempt: the failure redirect
back to /login with a message, or a role-based redirect with the
session set. -/
inductive LoginResult where
  | fail (msg : String)
  | success (path : String) (sess : SessionUser)
deriving Repr, DecidableEq

/-- POST /login from server.js lines 247-275: look the cleaned email up
in users; when no row matches or the password does not check against
the stored hash (`bcryptCompare` embeds `bcrypt.compareSync`), redirect
back with the one generic message; otherwise set the session and
redirect by role. -/
def loginRoute (bcryptCompare : String → String → Bool) (users : List UserRow)
    (bodyEmail bodyPassword : Option String) : LoginResult :=
  let email := cleanEmail bodyEmail
  let password := bodyPassword.getD ""
  match users.find? (fun u => u.email == email) with
  | none => .fail "Invalid email or password"
  | some u =>
    if ¬ bcryptCompare password u.password_hash then
      .fail "Invalid email or password"
    else
      let sess : SessionUser := ⟨u.id, u.email, u.role⟩
      if u.role == "admin" then .success "/admin" sess
      else if u.role == "student" then .success "/student" sess
      else if u.role == "employer" then .success "/employer" sess
      else .success "/login" sess

/-! ### part_009 POST /login (lines 80-95): the starter-mode login -/

/-- An entry of the in-memory `users` array of part_009: email and
role, no password at all. -/
structure User009 where
  email : String
  role : String
deriving Repr, DecidableEq

/-- One character of `escapeHtml` from part_009 lines 47-54: the five
replaced characters become their HTML entities (the fifth is the
apostrophe, written by code point). -/
def escapeChar (c : Char) : List Char :=
  if c = '&' then "&amp;".data
  else if c = '<' then "&lt;".data
  else if c = '>' then "&gt;".data
  else if c = '"' then "&quot;".data
  else if c = Char.ofNat 39 then "&#039;".data
  else [c]

/-- `escapeHtml` from part_009 lines 47-54. -/
def escapeHtml (s : String) : String :=
  String.mk ((s.data.map escapeChar).flatten)

/-- The user-visible outcome of the part_009 login: the
"User not found" page, which echoes the submitted (escaped) email, or
a session and a redirect to the root. -/
inductive Login009Result where
  | userNotFoundPage (echoedEmail : String)
  | redirectRoot (sess : User009)
deriving Repr, DecidableEq

/-- POST /login from part_009 lines 80-95: clean the email, look it up
in the in-memory `users` array; reply with the "User not found" page
(echoing the escaped email) when absent, otherwise store the user in
the session and redirect — no password is ever checked. -/
def login009 (users : List User009) (bodyEmail : Option String) : Login009Result :=
  let email := cleanEmail bodyEmail
  match users.find? (fun u => u.email == email) with
  | none => .userNotFoundPage (escapeHtml email)
  | some u => .redirectRoot u

/-- Claim C9, counterexample: in the cited part_009 login two runs
that differ only in whether the submitted email exists produce
different user-visible output — the absent account gets a distinct
"User not found" page that even echoes the submitted address, so
account existence leaks and the response is not the single generic
message. -/
theorem login009_leaks_account_existence :
    login009 [] (some "a@x.com") = .userNotFoundPage "a@x.com" ∧
    login009 [⟨"a@x.com", "student"⟩] (some "a@x.com") =
      .redirectRoot ⟨"a@x.com", "student"⟩ ∧
    login009 [] (some "a@x.com") ≠
      login009 [⟨"a@x.com", "student"⟩] (some "a@x.com") := by
  decide

/-- Claim C9, amended: the login handlers differ by iteration.  In
server.js, two login attempts that differ only in whether the
submitted email exists — one store has no matching row, the other has
a matching row whose hash rejects the submitted password — produce the
same user-visible output, the single generic failure message.  The
part_009 starter login, however, leaks account existence: an unknown
email gets the "User not found" page echoing the submitted address,
while a known email is logged straight in with no password check, so
the two runs produce different output there. -/
theorem login_message_by_iteration (cmp : String → String → Bool)
    (users₁ users₂ : List UserRow) (mem₁ mem₂ : List User009)
    (bodyEmail bodyPassword : Option String) (u : UserRow) (m : User009)
    (h₁ : users₁.find? (fun r => r.email == cleanEmail bodyEmail) = none)
    (h₂ : users₂.find? (fun r => r.email == cleanEmail bodyEmail) = some u)
    (hpw : cmp (bodyPassword.getD "") u.password_hash = false)
    (hm₁ : mem₁.find? (fun r => r.email == cleanEmail bodyEmail) = none)
    (hm₂ : mem₂.find? (fun r => r.email == cleanEmail bodyEmail) = some m) :
    (loginRoute cmp users₁ bodyEmail bodyPassword =
        loginRoute cmp users₂ bodyEmail bodyPassword ∧
      loginRoute cmp users₁ bodyEmail bodyPassword =
        .fail "Invalid email or password") ∧
    (login009 mem₁ bodyEmail =
        .userNotFoundPage (escapeHtml (cleanEmail bodyEmail)) ∧
      login009 mem₁ bodyEmail ≠ login009 mem₂ bodyEmail) := by
  constructor
  · unfold loginRoute
    simp only [h₁, h₂, hpw]
    simp
  · unfold login009
    simp only [hm₁, hm₂]
    simp

/-- Witness for `login_message_by_iteration` at concrete stores: the
same email is absent from the first server.js store and present with a
non-matching password hash in the second, and absent from the first
part_009 array and present in the second. -/
theorem login_message_by_iteration_witness :
    loginRoute (fun p h => p == h) [] (some "a@x.com") (some "pw") =
      loginRoute (fun p h => p == h)
        [⟨1, "a@x.com", "other-hash", "student"⟩] (some "a@x.com") (some "pw") ∧
    login009 [] (some "a@x.com") ≠
      login009 [⟨"a@x.com", "student"⟩] (some "a@x.com") :=
  let r := login_message_by_iteration (fun p h => p == h) []
    [⟨1, "a@x.com", "other-hash", "student"⟩] [] [⟨"a@x.com", "student"⟩]
    (some "a@x.com") (some "pw")
    ⟨1, "a@x.com", "other-hash", "student"⟩ ⟨"a@x.com", "student"⟩
    (by decide) (by decide) (by decide) (by decide) (by decide)
  ⟨r.1.1, r.2.2⟩

/-! ## Document upload (server.js multer storage, lines 223-237, and
POST /admin/students/:id/docs/upload, lines 1158-1196) -/

/-- The character class kept by the multer filename sanitizer
`[^a-zA-Z0-9._-]+`. -/
def isSafeFilenameChar (c : Char) : Bool :=
  c.isAlphanum || c == '.' || c == '_' || c == '-'

/-- `originalname.replace(/[^a-zA-Z0-9._-]+/g, "_")` over the character
list: each maximal run of disallowed characters becomes one
underscore (the flag records whether the previous character was part of
such a run). -/
def sanitizeAux : Bool → List Char → List Char
  | _, [] => []
  | prevBad, c :: rest =>
    if isSafeFilenameChar c then c :: sanitizeAux false rest
    else if prevBad then sanitizeAux true rest
    else '_' :: sanitizeAux true rest

/-- `safeOriginalName`: the sanitized original filename. -/
def safeOriginalName (s : String) : String :=
  String.mk (sanitizeAux false s.data)

/-- The multer `filename` callback from server.js lines 227-231:
`Date.now()` then 8 random bytes as hex then the sanitized original
name, joined by underscores. -/
def mkStoredFilename (now : Nat) (rand : String) (originalname : String) : String :=
  toString now ++ "_" ++ rand ++ "_" ++ safeOriginalName originalname

/-- The multer `destination` callback from server.js lines 224-226: it
receives the request (hence the student id of the route and the posted
category) but always answers the single flat `uploadDir`. -/
def multerDestination (uploadDir : String) (_studentId : Nat)
    (_doc_type : Option String) : String :=
  uploadDir

/-- The on-disk path of an upload: destination plus generated
filename. -/
def storedDiskPath (uploadDir : String) (now : Nat) (rand : String)
    (originalname : String) (studentId : Nat) (doc_type : Option String) : String :=
  multerDestination uploadDir studentId doc_type ++ "/" ++
    mkStoredFilename now rand originalname

/-- The file object multer attaches to the request. -/
structure UploadedFile where
  originalname : String
  filename : String
  mimetype : String
  size : Nat
deriving Repr, DecidableEq

/-- Response of the upload route. -/
inductive UploadResponse where
  | noFileSelected
  | uploaded
deriving Repr, DecidableEq

/-- POST /admin/students/:id/docs/upload from server.js lines
1158-1196: reject when no file was attached; otherwise INSERT exactly
one student_documents row (doc type defaulting to "Other", title to the
original name, mime type to application/octet-stream). -/
def adminDocsUpload (docs : List DocRow) (nextDocId studentId sessUserId : Nat)
    (file : Option UploadedFile) (doc_type title : Option String) :
    List DocRow × UploadResponse :=
  match file with
  | none => (docs, .noFileSelected)
  | some f =>
    let docType := cleanText doc_type
    let t := cleanText title
    (docs ++ [⟨nextDocId, studentId, sessUserId,
      (if docType == "" then "Other" else docType),
      (if t == "" then f.originalname else t),
      f.originalname, f.filename,
      (if f.mimetype == "" then "application/octet-stream" else f.mimetype),
      f.size⟩], .uploaded)

/-- Claim C8, counterexample: the stored path is not namespaced by
entity type, entity id, or category — uploads for student 1 under
category "ID" and for student 2 under category "Transcript" land on the
very same disk path, which is just the flat upload directory plus the
generated filename. -/
theorem upload_path_not_namespaced :
    storedDiskPath "uploads" 5 "ab12" "card.pdf" 1 (some "ID") =
      storedDiskPath "uploads" 5 "ab12" "card.pdf" 2 (some "Transcript") ∧
    storedDiskPath "uploads" 5 "ab12" "card.pdf" 1 (some "ID") =
      "uploads/5_ab12_card.pdf" := by
  decide

/-- Generated filenames with the same timestamp and original name
coincide only when the random components coincide, so uploads that draw
distinct random bytes cannot collide. -/
theorem mkStoredFilename_rand_inj (now : Nat) (r₁ r₂ n : String)
    (heq : mkStoredFilename now r₁ n = mkStoredFilename now r₂ n) : r₁ = r₂ := by
  unfold mkStoredFilename at heq
  have hd := congrArg String.data heq
  simp only [String.data_append, List.append_assoc] at hd
  exact String.ext
    (List.append_cancel_right (List.append_cancel_left (List.append_cancel_left hd)))

/-- Claim C8, amended: the upload stores the file flat in the single
upload directory under the timestamp-plus-random filename (no
entity/category namespacing), inserts exactly one metadata row leaving
the existing rows untouched, and distinct random components yield
distinct stored filenames. -/
theorem adminDocsUpload_spec (docs : List DocRow) (nid sid uid : Nat)
    (f : UploadedFile) (dt ttl : Option String) (now : Nat) (r₁ r₂ n : String)
    (hr : r₁ ≠ r₂) :
    (adminDocsUpload docs nid sid uid (some f) dt ttl).1.length = docs.length + 1 ∧
    (adminDocsUpload docs nid sid uid (some f) dt ttl).1.take docs.length = docs ∧
    (adminDocsUpload docs nid sid uid (some f) dt ttl).2 = .uploaded ∧
    storedDiskPath "uploads" now r₁ n sid dt =
      multerDestination "uploads" sid dt ++ "/" ++ mkStoredFilename now r₁ n ∧
    mkStoredFilename now r₁ n ≠ mkStoredFilename now r₂ n := by
  refine ⟨?_, ?_, ?_, rfl, fun h => hr (mkStoredFilename_rand_inj now r₁ r₂ n h)⟩
  · simp [adminDocsUpload]
  · simp [adminDocsUpload]
  · rfl

/-- Witness for `adminDocsUpload_spec` at a concrete upload with two
distinct random components. -/
theorem adminDocsUpload_spec_witness :
    (adminDocsUpload [] 1 7 1
      (some ⟨"card.pdf", "5_ab12_card.pdf", "application/pdf", 9⟩)
      (some "ID") (some "card")).1.length = 0 + 1 :=
  (adminDocsUpload_spec [] 1 7 1
    ⟨"card.pdf", "5_ab12_card.pdf", "application/pdf", 9⟩
    (some "ID") (some "card") 5 "ab12" "cd34" "card.pdf" (by decide)).1

/-! ## Compliance CSV export -/

/-- Modelled from the spec: src/ contains no CSV-export code; spec §4.3
describes the enrollee/exiter exports as a pure read+format operation
whose column headers must match an external template byte-for-byte.
A row is rendered as its cells joined by commas. -/
def csvRow (cells : List String) : String :=
  String.intercalate "," cells

/-- Modelled from the spec: an export is the header row built from the
externally dictated literal header list, followed by one rendered row
per student record. -/
def csvExport (headerCells : List String) (studentRows : List (List String)) :
    List String :=
  csvRow headerCells :: studentRows.map csvRow

/-- Claim C5 (against the spec model): for any externally dictated
header list — the enrollee and the exiter template alike — the first
output line is exactly the comma-joined header list, every export
carries one line per student after it, and with zero students the
output is the header row only. -/
theorem csvExport_header_fidelity (headerCells : List String)
    (studentRows : List (List String)) :
    csvExport headerCells [] = [csvRow headerCells] ∧
    (csvExport headerCells studentRows).head? = some (csvRow headerCells) ∧
    (csvExport headerCells studentRows).length = studentRows.length + 1 := by
  simp [csvExport]

end AeiPortal
